import Mathlib

/-!
Shallow embedding of the python worker wrapper's task-execution engine
(`python_worker_wrapper/activity.py`) of the moosestack repository, together
with theorems checking the natural-language specification against it.

The engine's collaborators (the workflow registry, the pydantic validation
mechanism, the Temporal orchestrator, the logging sink) are out of scope for
the spec and are modelled at their boundary: the registry as an association
list, a schema as a name plus a coercion function, handlers as functions from
an execution context to a new shared state and an outcome.  Python `None` is
embedded as `JsonVal.null`; a raised exception is an explicit outcome value;
the asynchronous control flow of `_execute_task` is embedded as the totally
ordered list of the engine events each control path performs.
-/

namespace MooseWorker

/-- A JSON-like Python value: `null` embeds Python `None`, `obj` a `dict`. -/
inductive JsonVal where
  | null
  | bool (b : Bool)
  | int (n : Int)
  | str (s : String)
  | obj (fields : List (String × JsonVal))

/-- `d.get(k)` on a Python dict embedded as an association list. -/
def dictGet (d : List (String × JsonVal)) (k : String) : Option JsonVal :=
  match d with
  | [] => none
  | (k2, v) :: rest => if k2 = k then some v else dictGet rest k

/-- The per-invocation mutable `shared_task_state` dict, embedded as an
association list threaded explicitly through the handlers. -/
abbrev SharedState := List (String × JsonVal)

/-- Modelled from the spec: `ExecutionContext = {state, input}` — the
`TaskContext(state=..., input=...)` dataclass of `moose_lib.dmv2.workflow`
that `activity.py` constructs for each call into `run` or `on_cancel`. -/
structure TaskContext where
  state : SharedState
  input : JsonVal

/-- A Python exception as the engine distinguishes them:
`asyncio.CancelledError` (which is not an `Exception` subclass) versus an
ordinary `Exception` carrying `str(e)`. -/
inductive PyExc where
  | cancelled
  | error (msg : String)
deriving DecidableEq

/-- What awaiting a handler call settles to: a returned value or a raised
exception (including the cancellation signal interrupting the await). -/
inductive HandlerOutcome where
  | ok (v : JsonVal)
  | exc (e : PyExc)

/-- A user handler (`run` or `on_cancel`), sync or async: semantically a
function from the execution context to the shared state as mutated by the
handler, together with how the awaited call settled. -/
structure Handler where
  behavior : TaskContext → SharedState × HandlerOutcome

/-- Modelled from the spec: the input-validation collaborator — a declared
input schema (`task.model_type`, a pydantic model class), exposed at its
boundary as a name (`__name__`), an instance test (`isinstance`), and a
coercion `model_validate` that either returns a validated value or raises
with a cause message. -/
structure Model where
  name : String
  isInstance : JsonVal → Bool
  validate : JsonVal → Except String JsonVal

/-- The `task.config` record of a task definition: the `run` handler and the
optional `on_cancel` handler. -/
structure TaskConfig where
  run : Handler
  on_cancel : Option Handler

/-- Modelled from the spec: `TaskDefinition = {name, input schema?, run,
on_cancel?}` — the `Task` object of `moose_lib.dmv2.workflow` as `activity.py`
consumes it (`task.name`, `task.model_type`, `task.config.run`,
`task.config.on_cancel`). -/
structure TaskDefinition where
  name : String
  model_type : Option Model
  config : TaskConfig

/-- Modelled from the spec: a workflow owning named tasks, as exposed by the
registry collaborator through `workflow.get_task(task_name)`. -/
structure Workflow where
  name : String
  tasks : List (String × TaskDefinition)

/-- Modelled from the spec: the registry collaborator that maps workflow
names to workflow definitions (`moose_lib.dmv2.get_workflow`); returns the
falsy `None` when the name is unknown. -/
def get_workflow (registry : List (String × Workflow)) (name : String) :
    Option Workflow :=
  match registry with
  | [] => none
  | (n, w) :: rest => if n = name then some w else get_workflow rest name

/-- Name lookup in a list of named tasks. -/
def lookupTask : List (String × TaskDefinition) → String → Option TaskDefinition
  | [], _ => none
  | (n, t) :: rest, k => if n = k then some t else lookupTask rest k

/-- Modelled from the spec: task lookup within a workflow
(`workflow.get_task`); returns the falsy `None` when the name is unknown. -/
def Workflow.get_task (w : Workflow) (task_name : String) :
    Option TaskDefinition :=
  lookupTask w.tasks task_name

/-- The `ScriptExecutionInput` dataclass of `activity.py`: the invocation as
received from the orchestrator.  `input_data` is `Optional[dict]`. -/
structure ScriptExecutionInput where
  workflow_name : String
  task_name : String
  input_data : Option (List (String × JsonVal)) := none

/-- `_process_input_data` of `activity.py`: extract the user payload.
A falsy `input_data` (`None` or the empty dict) yields `None`; otherwise
`input_data.get("data", input_data)`. -/
def process_input_data (execution_input : ScriptExecutionInput) : JsonVal :=
  match execution_input.input_data with
  | none => .null
  | some d =>
      if d.isEmpty then .null
      else match dictGet d "data" with
        | some v => v
        | none => .obj d

/-- `_get_workflow_and_task` of `activity.py`: resolve the invocation to a
task definition, raising `ValueError` (embedded as `Except.error` with the
exact message) when the workflow or the task is unknown.  The workflow object
itself is not used by the engine after resolution, so only the task is
returned. -/
def get_workflow_and_task (registry : List (String × Workflow))
    (execution_input : ScriptExecutionInput) : Except String TaskDefinition :=
  match get_workflow registry execution_input.workflow_name with
  | none => .error ("Workflow " ++ execution_input.workflow_name ++ " not found")
  | some workflow =>
      match workflow.get_task execution_input.task_name with
      | none => .error ("Task " ++ execution_input.task_name ++
          " not found in workflow " ++ execution_input.workflow_name)
      | some task => .ok task

/-- How `_validate_input_data` of `activity.py` fails: the missing-input
`ValueError`, or a coercion failure (which the validator also logs at error
level before raising). -/
inductive ValidationFailure where
  | missingInput (msg : String)
  | coercionFailed (modelName : String) (cause : String)

/-- The message of the `ValueError` that `_validate_input_data` raises. -/
def ValidationFailure.message : ValidationFailure → String
  | .missingInput m => m
  | .coercionFailed n c =>
      "Input data does not match task's input type " ++ n ++ ": " ++ c

/-- `_validate_input_data` of `activity.py`: no declared model returns
`None`; a declared model with `None` input raises the missing-input error
naming the model; an instance of the model passes through unchanged;
otherwise the payload is coerced by `model_validate`, failures being wrapped
with the model's name. -/
def validate_input_data (input_data : JsonVal) (task : TaskDefinition) :
    Except ValidationFailure JsonVal :=
  match task.model_type with
  | none => .ok .null
  | some model =>
      match input_data with
      | .null =>
          .error (.missingInput ("Task '" ++ task.name ++
            "' requires input of type " ++ model.name ++ " but received None"))
      | v =>
          if model.isInstance v then .ok v
          else match model.validate v with
            | .ok validated => .ok validated
            | .error e => .error (.coercionFailed model.name e)

/-- Modelled from the spec: `TaskResult = {task_name, data}` — the
`WorkflowStepResult` value `activity.py` returns on success through the
activity-completion channel. -/
structure WorkflowStepResult where
  task : String
  data : JsonVal

/-- The JSON payload `{error, details, traceback}` of the `ApplicationError`
the engine raises on a non-cancellation failure. -/
structure ErrorData where
  error : String
  details : String
  traceback : String

/-- `traceback.format_exc()` for an exception with message `msg`: the full
trace text.  Its exact content is runtime metadata; what the embedding keeps
is that it is built from a non-empty header, as in CPython. -/
def format_exc (msg : String) : String :=
  "Traceback (most recent call last):\n" ++ msg

/-- The `error_data` dict `_execute_task` builds in its outer exception
handler from a caught non-cancellation exception with `str(e) = msg`. -/
def mkErrorData (msg : String) : ErrorData :=
  { error := "Task execution failed"
    details := msg
    traceback := format_exc msg }

/-- One `log.error(...)` record the engine emits: the validator's coercion
failure log, the packager's `json.dumps(error_data)` log, or the swallowed
`on_cancel` error log. -/
inductive ErrorLog where
  | validationFailed (modelName : String) (cause : String)
  | taskFailed (payload : ErrorData)
  | onCancelError (task_name : String) (cause : String)

/-- The observable engine events of one invocation of `_execute_task`, in
program order: resource allocation (the `ThreadPoolExecutor` construction
and the creation of the heartbeat `asyncio.Task`), the initial explicit
heartbeat, the dispatch and settlement of `run` and of `on_cancel`, and the
teardown (`heartbeat_task.cancel()` followed by awaiting its completion, then
`executor.shutdown`). -/
inductive Event where
  | executorCreated
  | heartbeatTaskCreated
  | initialHeartbeat
  | runInvoked
  | runSettled
  | onCancelInvoked
  | onCancelSettled
  | heartbeatStopped
  | executorShutdown
deriving DecidableEq

/-- How one invocation terminates toward the orchestrator: a returned
`WorkflowStepResult`, a raised `ApplicationError` carrying the JSON failure
payload, or the propagated cancellation signal. -/
inductive TaskOutcome where
  | success (r : WorkflowStepResult)
  | appError (payload : ErrorData)
  | cancelled

/-- Everything observable about one invocation of `_execute_task`: its
outcome, the ordered engine events, the error-level log records, how often
and with which execution context each handler was invoked, and the final
shared task state. -/
structure EngineResult where
  outcome : TaskOutcome
  events : List Event
  errorLogs : List ErrorLog
  runCalls : Nat
  onCancelCalls : Nat
  runCtx : Option TaskContext
  onCancelCtx : Option TaskContext
  finalState : SharedState

/-- `_cleanup_resources` of `activity.py` in the `finally` block: cancel the
heartbeat task and await it (tolerating its `CancelledError`), then shut the
executor down. -/
def cleanupEvents : List Event := [Event.heartbeatStopped, Event.executorShutdown]

/-- The engine from handler dispatch onward, given the resolved task, the
invocation's task name, and the validated input: `_execute_task_function`
(dispatching `run` on a fresh `TaskContext` over the empty shared state),
the inner `except asyncio.CancelledError` branch calling
`_handle_task_cancellation` (which dispatches `on_cancel` when defined on the
shared state as mutated by `run`, swallowing and logging ordinary exceptions),
and the outer handler wrapping a non-cancellation exception exactly once into
an `ApplicationError` after one `log.error`.  Events from `runInvoked` on. -/
def run_phase (task : TaskDefinition) (task_name : String) (validated : JsonVal) :
    EngineResult :=
  match task.config.run.behavior ⟨[], validated⟩ with
  | (state1, .ok v) =>
      { outcome := .success { task := task_name, data := v }
        events := [Event.runInvoked, Event.runSettled] ++ cleanupEvents
        errorLogs := []
        runCalls := 1
        onCancelCalls := 0
        runCtx := some ⟨[], validated⟩
        onCancelCtx := none
        finalState := state1 }
  | (state1, .exc (.error msg)) =>
      { outcome := .appError (mkErrorData msg)
        events := [Event.runInvoked, Event.runSettled] ++ cleanupEvents
        errorLogs := [.taskFailed (mkErrorData msg)]
        runCalls := 1
        onCancelCalls := 0
        runCtx := some ⟨[], validated⟩
        onCancelCtx := none
        finalState := state1 }
  | (state1, .exc .cancelled) =>
      match task.config.on_cancel with
      | none =>
          { outcome := .cancelled
            events := [Event.runInvoked, Event.runSettled] ++ cleanupEvents
            errorLogs := []
            runCalls := 1
            onCancelCalls := 0
            runCtx := some ⟨[], validated⟩
            onCancelCtx := none
            finalState := state1 }
      | some handler =>
          match handler.behavior ⟨state1, validated⟩ with
          | (state2, cancelOutcome) =>
              { outcome := .cancelled
                events := [Event.runInvoked, Event.runSettled,
                  Event.onCancelInvoked, Event.onCancelSettled] ++ cleanupEvents
                errorLogs :=
                  match cancelOutcome with
                  | .exc (.error m) => [.onCancelError task_name m]
                  | _ => []
                runCalls := 1
                onCancelCalls := 1
                runCtx := some ⟨[], validated⟩
                onCancelCtx := some ⟨state1, validated⟩
                finalState := state2 }

/-- The `log.error` record `_validate_input_data` itself emits before
raising: only the coercion branch logs. -/
def validation_logs : ValidationFailure → List ErrorLog
  | .missingInput _ => []
  | .coercionFailed n c => [.validationFailed n c]

/-- An invocation that raised before handler dispatch: the exception with
message `msg` propagates from the `try` body to the outer handler, is wrapped
once into the `ApplicationError` payload after one `log.error`, and the
`finally` block still tears the pre-allocated resources down.  `preLogs` are
error logs already emitted inside the `try` body. -/
def failed_before_dispatch (preLogs : List ErrorLog) (msg : String) :
    EngineResult :=
  { outcome := .appError (mkErrorData msg)
    events := [Event.executorCreated, Event.heartbeatTaskCreated] ++ cleanupEvents
    errorLogs := preLogs ++ [.taskFailed (mkErrorData msg)]
    runCalls := 0
    onCancelCalls := 0
    runCtx := none
    onCancelCtx := none
    finalState := [] }

/-- Prefix the dispatch-phase result with the events `_execute_task`
performs first: executor construction, heartbeat task creation, and (after
successful resolution and validation) the initial explicit heartbeat. -/
def with_pre_events (r : EngineResult) : EngineResult :=
  { r with events := [Event.executorCreated, Event.heartbeatTaskCreated,
      Event.initialHeartbeat] ++ r.events }

/-- `_execute_task` of `activity.py`, whole: allocate the executor and the
heartbeat task, then inside `try`: extract the payload, resolve the task,
validate the input, send the initial heartbeat, dispatch `run` and package
the outcome (handling cancellation via `on_cancel`); any non-cancellation
exception is wrapped once into an `ApplicationError` after one `log.error`;
the cancellation signal is re-raised unchanged; `finally` tears down. -/
def execute_task (registry : List (String × Workflow))
    (execution_input : ScriptExecutionInput) : EngineResult :=
  match get_workflow_and_task registry execution_input with
  | .error msg => failed_before_dispatch [] msg
  | .ok task =>
      match validate_input_data (process_input_data execution_input) task with
      | .error vf => failed_before_dispatch (validation_logs vf) vf.message
      | .ok validated =>
          with_pre_events (run_phase task execution_input.task_name validated)

/-! ### The structured print interceptor (`_structured_print`) -/

/-- The `file` argument of a `print` call as `_structured_print`
distinguishes it: unspecified (`None`), `sys.stdout`, `sys.stderr`, or any
other file object. -/
inductive Dest where
  | unspecified
  | stdout
  | stderr
  | other
deriving DecidableEq, BEq

/-- One structured log line as `_structured_print` emits it: the
`__moose_structured_log__` marker, the level, the joined message, the task
identity from the context variable, and the UTC ISO-8601 timestamp. -/
structure StructuredLogRecord where
  marker : Bool
  level : String
  message : String
  task_name : String
  timestamp : String
deriving DecidableEq

/-- What one call to the intercepted `print` does: write exactly one JSON
line (the record serialized) to the error stream, flushing it synchronously
when asked, or pass all arguments through to the original `print`
unmodified. -/
inductive PrintEffect where
  | structuredLine (record : StructuredLogRecord) (flushed : Bool)
  | passthrough (args : List String) (sep : String) (eol : String)
      (file : Dest) (flush : Bool)
deriving DecidableEq

/-- Python truthiness of the `Optional[str]` context variable value:
`None` and the empty string are falsy. -/
def pyTruthyStr : Option String → Bool
  | none => false
  | some s => s != ""

/-- `_structured_print` of `activity.py`: when the task-context variable
holds a truthy task name and `file` is `None`, `sys.stderr` or `sys.stdout`,
emit one structured JSON line to stderr (flushing when `flush` is set);
otherwise fall through to the original `print` with all arguments
unchanged.  `now` is the current UTC ISO-8601 time. -/
def structured_print (task_context : Option String) (args : List String)
    (sep : String) (eol : String) (file : Dest) (flush : Bool)
    (now : String) : PrintEffect :=
  if pyTruthyStr task_context
      && (file == Dest.unspecified || file == Dest.stderr || file == Dest.stdout) then
    .structuredLine
      { marker := true
        level := "info"
        message := String.intercalate sep args
        task_name := task_context.getD ""
        timestamp := now }
      flush
  else
    .passthrough args sep eol file flush

/-! ### Projection helpers -/

@[simp] theorem with_pre_events_outcome (r : EngineResult) :
    (with_pre_events r).outcome = r.outcome := rfl

@[simp] theorem with_pre_events_errorLogs (r : EngineResult) :
    (with_pre_events r).errorLogs = r.errorLogs := rfl

@[simp] theorem with_pre_events_runCalls (r : EngineResult) :
    (with_pre_events r).runCalls = r.runCalls := rfl

@[simp] theorem with_pre_events_onCancelCalls (r : EngineResult) :
    (with_pre_events r).onCancelCalls = r.onCancelCalls := rfl

@[simp] theorem with_pre_events_runCtx (r : EngineResult) :
    (with_pre_events r).runCtx = r.runCtx := rfl

@[simp] theorem with_pre_events_onCancelCtx (r : EngineResult) :
    (with_pre_events r).onCancelCtx = r.onCancelCtx := rfl

@[simp] theorem with_pre_events_finalState (r : EngineResult) :
    (with_pre_events r).finalState = r.finalState := rfl

@[simp] theorem with_pre_events_events (r : EngineResult) :
    (with_pre_events r).events = [Event.executorCreated, Event.heartbeatTaskCreated,
      Event.initialHeartbeat] ++ r.events := rfl

/-- Reduction of `execute_task` to the dispatch phase once resolution and
validation have succeeded. -/
theorem execute_task_eq_dispatch (registry : List (String × Workflow))
    (ei : ScriptExecutionInput) (task : TaskDefinition) (v : JsonVal)
    (hres : get_workflow_and_task registry ei = .ok task)
    (hval : validate_input_data (process_input_data ei) task = .ok v) :
    execute_task registry ei = with_pre_events (run_phase task ei.task_name v) := by
  simp only [execute_task, hres, hval]

/-- Reduction of `execute_task` when resolution fails. -/
theorem execute_task_resolution_error (registry : List (String × Workflow))
    (ei : ScriptExecutionInput) (msg : String)
    (hres : get_workflow_and_task registry ei = .error msg) :
    execute_task registry ei = failed_before_dispatch [] msg := by
  simp only [execute_task, hres]

/-- Reduction of `execute_task` when validation fails. -/
theorem execute_task_validation_error (registry : List (String × Workflow))
    (ei : ScriptExecutionInput) (task : TaskDefinition) (vf : ValidationFailure)
    (hres : get_workflow_and_task registry ei = .ok task)
    (hval : validate_input_data (process_input_data ei) task = .error vf) :
    execute_task registry ei = failed_before_dispatch (validation_logs vf) vf.message := by
  simp only [execute_task, hres, hval]

/-- Equation for the dispatch phase when `run` returns normally. -/
theorem run_phase_of_ok (task : TaskDefinition) (tn : String) (v : JsonVal)
    (s1 : SharedState) (r : JsonVal)
    (h : task.config.run.behavior ⟨[], v⟩ = (s1, .ok r)) :
    run_phase task tn v =
      { outcome := .success { task := tn, data := r }
        events := [Event.runInvoked, Event.runSettled] ++ cleanupEvents
        errorLogs := []
        runCalls := 1
        onCancelCalls := 0
        runCtx := some ⟨[], v⟩
        onCancelCtx := none
        finalState := s1 } := by
  simp only [run_phase, h]

/-- Equation for the dispatch phase when `run` raises an ordinary error. -/
theorem run_phase_of_error (task : TaskDefinition) (tn : String) (v : JsonVal)
    (s1 : SharedState) (msg : String)
    (h : task.config.run.behavior ⟨[], v⟩ = (s1, .exc (.error msg))) :
    run_phase task tn v =
      { outcome := .appError (mkErrorData msg)
        events := [Event.runInvoked, Event.runSettled] ++ cleanupEvents
        errorLogs := [.taskFailed (mkErrorData msg)]
        runCalls := 1
        onCancelCalls := 0
        runCtx := some ⟨[], v⟩
        onCancelCtx := none
        finalState := s1 } := by
  simp only [run_phase, h]

/-- Equation for the dispatch phase when `run` is cancelled and no
`on_cancel` handler is defined. -/
theorem run_phase_of_cancel_none (task : TaskDefinition) (tn : String)
    (v : JsonVal) (s1 : SharedState)
    (h : task.config.run.behavior ⟨[], v⟩ = (s1, .exc .cancelled))
    (hoc : task.config.on_cancel = none) :
    run_phase task tn v =
      { outcome := .cancelled
        events := [Event.runInvoked, Event.runSettled] ++ cleanupEvents
        errorLogs := []
        runCalls := 1
        onCancelCalls := 0
        runCtx := some ⟨[], v⟩
        onCancelCtx := none
        finalState := s1 } := by
  simp only [run_phase, h, hoc]

/-- Equation for the dispatch phase when `run` is cancelled and the defined
`on_cancel` handler settles to `co` with final state `s2`. -/
theorem run_phase_of_cancel_some (task : TaskDefinition) (tn : String)
    (v : JsonVal) (s1 s2 : SharedState) (handler : Handler)
    (co : HandlerOutcome)
    (h : task.config.run.behavior ⟨[], v⟩ = (s1, .exc .cancelled))
    (hoc : task.config.on_cancel = some handler)
    (hb : handler.behavior ⟨s1, v⟩ = (s2, co)) :
    run_phase task tn v =
      { outcome := .cancelled
        events := [Event.runInvoked, Event.runSettled,
          Event.onCancelInvoked, Event.onCancelSettled] ++ cleanupEvents
        errorLogs :=
          match co with
          | .exc (.error m) => [.onCancelError tn m]
          | _ => []
        runCalls := 1
        onCancelCalls := 1
        runCtx := some ⟨[], v⟩
        onCancelCtx := some ⟨s1, v⟩
        finalState := s2 } := by
  simp only [run_phase, h, hoc, hb]
  cases co with
  | ok _ => rfl
  | exc e => cases e <;> rfl

/-- A task that declares no input schema validates every payload to the
"no input" value. -/
theorem validate_of_no_model (task : TaskDefinition)
    (hm : task.model_type = none) (x : JsonVal) :
    validate_input_data x task = .ok .null := by
  simp only [validate_input_data, hm]

/-- A task that declares a schema rejects the absent payload with the
missing-input error naming the schema. -/
theorem validate_of_missing_input (task : TaskDefinition) (m : Model)
    (hm : task.model_type = some m) :
    validate_input_data .null task =
      .error (.missingInput ("Task '" ++ task.name ++
        "' requires input of type " ++ m.name ++ " but received None")) := by
  simp only [validate_input_data, hm]

/-! ### Concrete fixtures for witnesses and counterexamples -/

/-- The spec's example schema `{a:int, b:int}`: coercion succeeds exactly on
objects carrying integer fields `a` and `b`. -/
def sumModel : Model where
  name := "SumInput"
  isInstance := fun _ => false
  validate := fun v =>
    match v with
    | .obj fields =>
        match dictGet fields "a", dictGet fields "b" with
        | some (.int a), some (.int b) => .ok (.obj [("a", .int a), ("b", .int b)])
        | _, _ => .error "missing integer fields a and b"
    | _ => .error "expected an object"

/-- The spec's example handler `ctx -> ctx.input.a + ctx.input.b`. -/
def sumRun : Handler where
  behavior := fun ctx =>
    (ctx.state,
      match ctx.input with
      | .obj fields =>
          match dictGet fields "a", dictGet fields "b" with
          | some (.int a), some (.int b) => .ok (.int (a + b))
          | _, _ => .exc (.error "missing input fields")
      | _ => .exc (.error "missing input fields"))

/-- The spec's example task `TaskDefinition{name="sum", schema={a:int,b:int}}`. -/
def sumTask : TaskDefinition where
  name := "sum"
  model_type := some sumModel
  config := { run := sumRun, on_cancel := none }

/-- A `run` handler that records progress in the shared state and is then
interrupted by the cancellation signal at its await point. -/
def cancellingRun : Handler where
  behavior := fun ctx =>
    (("progress", JsonVal.str "started") :: ctx.state, .exc .cancelled)

/-- An `on_cancel` handler appending a `cancelled` marker to the shared
state and completing normally. -/
def appendCancelled : Handler where
  behavior := fun ctx =>
    (("cancelled", JsonVal.bool true) :: ctx.state, .ok .null)

/-- An `on_cancel` handler that itself raises an ordinary exception. -/
def failingOnCancel : Handler where
  behavior := fun ctx => (ctx.state, .exc (.error "cleanup failed"))

/-- A `run` handler that completes normally without touching the state. -/
def noopRun : Handler where
  behavior := fun ctx => (ctx.state, .ok .null)

/-- A `run` handler raising a plain error with message `boom`. -/
def boomRun : Handler where
  behavior := fun ctx => (ctx.state, .exc (.error "boom"))

/-- A `run` handler raising an exception whose `str(e)` is empty, as
`raise ValueError()` produces. -/
def silentBoomRun : Handler where
  behavior := fun ctx => (ctx.state, .exc (.error ""))

/-- A schema used only to declare that input is required; its coercion is
never reached in the scenarios that use it. -/
def strictModel : Model where
  name := "StrictInput"
  isInstance := fun _ => false
  validate := fun _ => .error "coercion unreachable in this scenario"

/-- Task whose `run` is cancelled and whose `on_cancel` completes. -/
def cancelOkTask : TaskDefinition where
  name := "cancelok"
  model_type := none
  config := { run := cancellingRun, on_cancel := some appendCancelled }

/-- Task whose `run` is cancelled and whose `on_cancel` raises. -/
def cancelErrTask : TaskDefinition where
  name := "cancelerr"
  model_type := none
  config := { run := cancellingRun, on_cancel := some failingOnCancel }

/-- Task whose `run` completes normally although `on_cancel` is defined. -/
def noopTask : TaskDefinition where
  name := "noop"
  model_type := none
  config := { run := noopRun, on_cancel := some appendCancelled }

/-- Task whose `run` raises a plain error. -/
def boomTask : TaskDefinition where
  name := "boom"
  model_type := none
  config := { run := boomRun, on_cancel := none }

/-- Task whose `run` raises an exception with an empty message. -/
def silentBoomTask : TaskDefinition where
  name := "silent"
  model_type := none
  config := { run := silentBoomRun, on_cancel := none }

/-- Task declaring the `StrictInput` schema. -/
def strictTask : TaskDefinition where
  name := "strict"
  model_type := some strictModel
  config := { run := noopRun, on_cancel := none }

/-- A registry holding one workflow `wf` with all fixture tasks. -/
def mainRegistry : List (String × Workflow) :=
  [("wf",
    { name := "wf"
      tasks := [("sum", sumTask), ("cancelok", cancelOkTask),
        ("cancelerr", cancelErrTask), ("noop", noopTask), ("boom", boomTask),
        ("silent", silentBoomTask), ("strict", strictTask)] })]

/-- The spec's example invocation `input_data={"data":{"a":2,"b":3}}`. -/
def sumInvocation : ScriptExecutionInput where
  workflow_name := "wf"
  task_name := "sum"
  input_data := some [("data", .obj [("a", .int 2), ("b", .int 3)])]

/-- An invocation of a fixture task with absent `input_data`. -/
def bareInvocation (task_name : String) : ScriptExecutionInput where
  workflow_name := "wf"
  task_name := task_name
  input_data := none

/-- The traceback text the wrapper embeds is never empty. -/
theorem format_exc_ne_empty (msg : String) : format_exc msg ≠ "" := by
  intro h
  have h2 := congrArg String.length h
  simp only [format_exc, String.length_append, String.length_empty] at h2
  have h3 : 0 < String.length "Traceback (most recent call last):\n" := by decide
  omega

/-! ### Claims -/

/-- C1: For every invocation whose `run` handler is interrupted by the
cancellation signal while awaited, if the task defines an `on_cancel` handler
it is invoked exactly once, with an execution context built from the same
shared-task-state mapping (including all mutations `run` made before
cancellation) and the last successfully validated input; if `run` already
completed normally, `on_cancel` is never invoked; in both cases the
cancellation signal reaches the caller unchanged. -/
theorem cancellation_invokes_on_cancel_exactly_once
    (registry : List (String × Workflow)) (ei : ScriptExecutionInput)
    (task : TaskDefinition) (v : JsonVal)
    (hres : get_workflow_and_task registry ei = .ok task)
    (hval : validate_input_data (process_input_data ei) task = .ok v) :
    (∀ s1, task.config.run.behavior ⟨[], v⟩ = (s1, .exc .cancelled) →
        (execute_task registry ei).outcome = .cancelled
      ∧ (task.config.on_cancel = none →
          (execute_task registry ei).onCancelCalls = 0)
      ∧ (∀ handler, task.config.on_cancel = some handler →
            (execute_task registry ei).onCancelCalls = 1
          ∧ (execute_task registry ei).onCancelCtx = some ⟨s1, v⟩))
  ∧ (∀ s1 r, task.config.run.behavior ⟨[], v⟩ = (s1, .ok r) →
        (execute_task registry ei).onCancelCalls = 0
      ∧ (execute_task registry ei).outcome =
          .success { task := ei.task_name, data := r }) := by
  rw [execute_task_eq_dispatch registry ei task v hres hval]
  constructor
  · intro s1 hrun
    refine ⟨?_, ?_, ?_⟩
    · rcases hoc : task.config.on_cancel with _ | handler
      · rw [run_phase_of_cancel_none task ei.task_name v s1 hrun hoc]
        rfl
      · rcases hb : handler.behavior ⟨s1, v⟩ with ⟨s2, co⟩
        rw [run_phase_of_cancel_some task ei.task_name v s1 s2 handler co hrun hoc hb]
        rfl
    · intro hoc
      rw [run_phase_of_cancel_none task ei.task_name v s1 hrun hoc]
      rfl
    · intro handler hoc
      rcases hb : handler.behavior ⟨s1, v⟩ with ⟨s2, co⟩
      rw [run_phase_of_cancel_some task ei.task_name v s1 s2 handler co hrun hoc hb]
      exact ⟨rfl, rfl⟩
  · intro s1 r hrun
    rw [run_phase_of_ok task ei.task_name v s1 r hrun]
    exact ⟨rfl, rfl⟩

/-- Witness for C1: the `cancelok` fixture (whose `run` mutates the shared
state and is then cancelled) has its `on_cancel` invoked exactly once with
the mutated state and the validated input, and the invocation ends
cancelled; the `noop` fixture (whose `run` completes normally although
`on_cancel` is defined) never has `on_cancel` invoked. -/
theorem cancellation_invokes_on_cancel_exactly_once_witness :
    (execute_task mainRegistry (bareInvocation "cancelok")).outcome = .cancelled
  ∧ (execute_task mainRegistry (bareInvocation "cancelok")).onCancelCalls = 1
  ∧ (execute_task mainRegistry (bareInvocation "cancelok")).onCancelCtx =
      some ⟨[("progress", .str "started")], .null⟩
  ∧ (execute_task mainRegistry (bareInvocation "noop")).onCancelCalls = 0 := by
  have h := cancellation_invokes_on_cancel_exactly_once mainRegistry
    (bareInvocation "cancelok") cancelOkTask .null rfl rfl
  have hn := cancellation_invokes_on_cancel_exactly_once mainRegistry
    (bareInvocation "noop") noopTask .null rfl rfl
  have h2 := h.1 [("progress", JsonVal.str "started")] rfl
  exact ⟨h2.1, (h2.2.2 appendCancelled rfl).1, (h2.2.2 appendCancelled rfl).2,
    (hn.2 [] .null rfl).1⟩

/-- C2: For every cancellation of an invocation, an ordinary exception
raised inside `on_cancel` is caught, logged and discarded — it never
replaces or suppresses the original cancellation signal — and the
cancellation signal is never wrapped into a failure payload but propagates
verbatim after cleanup is attempted. -/
theorem on_cancel_errors_swallowed_cancellation_unwrapped
    (registry : List (String × Workflow)) (ei : ScriptExecutionInput)
    (task : TaskDefinition) (v : JsonVal) (s1 : SharedState)
    (hres : get_workflow_and_task registry ei = .ok task)
    (hval : validate_input_data (process_input_data ei) task = .ok v)
    (hrun : task.config.run.behavior ⟨[], v⟩ = (s1, .exc .cancelled)) :
    (execute_task registry ei).outcome = .cancelled
  ∧ (∀ d, (execute_task registry ei).outcome ≠ .appError d)
  ∧ (∀ handler s2 m, task.config.on_cancel = some handler →
        handler.behavior ⟨s1, v⟩ = (s2, .exc (.error m)) →
          (execute_task registry ei).errorLogs =
            [.onCancelError ei.task_name m]) := by
  rw [execute_task_eq_dispatch registry ei task v hres hval]
  have hout : (with_pre_events (run_phase task ei.task_name v)).outcome =
      .cancelled := by
    rcases hoc : task.config.on_cancel with _ | handler
    · rw [run_phase_of_cancel_none task ei.task_name v s1 hrun hoc]
      rfl
    · rcases hb : handler.behavior ⟨s1, v⟩ with ⟨s2, co⟩
      rw [run_phase_of_cancel_some task ei.task_name v s1 s2 handler co hrun hoc hb]
      rfl
  refine ⟨hout, ?_, ?_⟩
  · intro d h
    rw [hout] at h
    exact TaskOutcome.noConfusion h
  · intro handler s2 m hoc hb
    rw [run_phase_of_cancel_some task ei.task_name v s1 s2 handler
      (.exc (.error m)) hrun hoc hb]
    rfl

/-- Witness for C2: the `cancelerr` fixture, whose `on_cancel` raises, still
ends cancelled (never as a wrapped failure) and the `on_cancel` error is
logged and discarded. -/
theorem on_cancel_errors_swallowed_cancellation_unwrapped_witness :
    (execute_task mainRegistry (bareInvocation "cancelerr")).outcome = .cancelled
  ∧ (execute_task mainRegistry (bareInvocation "cancelerr")).errorLogs =
      [.onCancelError "cancelerr" "cleanup failed"] := by
  have h := on_cancel_errors_swallowed_cancellation_unwrapped mainRegistry
    (bareInvocation "cancelerr") cancelErrTask .null
    [("progress", JsonVal.str "started")] rfl rfl rfl
  exact ⟨h.1, h.2.2 failingOnCancel [("progress", JsonVal.str "started")]
    "cleanup failed" rfl rfl⟩

/-- C3 counterexample: a `run` handler raising an exception whose message is
empty (as `raise ValueError()` does) yields a failure payload whose
`details` field is the empty string, refuting the claim that the payload's
`details` field is non-empty for every failing invocation. -/
theorem empty_exception_message_gives_empty_details :
    (execute_task mainRegistry (bareInvocation "silent")).outcome =
      .appError (mkErrorData "")
  ∧ (mkErrorData "").details = "" := ⟨rfl, rfl⟩

/-- C3 (amended): for every invocation in which the `run` handler raises a
non-cancellation exception, the engine emits exactly one error-level
structured log record and raises a typed failure whose JSON payload has
non-empty `error` and `traceback` fields and whose `details` field carries
the exception's message (possibly empty); the wrapping happens exactly once
per failing invocation and the raw exception never escapes unwrapped. -/
theorem handler_error_wrapped_exactly_once
    (registry : List (String × Workflow)) (ei : ScriptExecutionInput)
    (task : TaskDefinition) (v : JsonVal) (s1 : SharedState) (msg : String)
    (hres : get_workflow_and_task registry ei = .ok task)
    (hval : validate_input_data (process_input_data ei) task = .ok v)
    (hrun : task.config.run.behavior ⟨[], v⟩ = (s1, .exc (.error msg))) :
    (execute_task registry ei).errorLogs = [.taskFailed (mkErrorData msg)]
  ∧ (execute_task registry ei).outcome = .appError (mkErrorData msg)
  ∧ (mkErrorData msg).error ≠ ""
  ∧ (mkErrorData msg).traceback ≠ ""
  ∧ (mkErrorData msg).details = msg := by
  rw [execute_task_eq_dispatch registry ei task v hres hval,
    run_phase_of_error task ei.task_name v s1 msg hrun]
  refine ⟨rfl, rfl, ?_, format_exc_ne_empty msg, rfl⟩
  have herr : ("Task execution failed" : String) ≠ "" := by decide
  exact fun h => herr h

/-- Witness for C3 (amended): the `boom` fixture emits exactly one
error-level log record and fails with the wrapped payload whose `error` and
`traceback` are non-empty and whose `details` is the message `boom`. -/
theorem handler_error_wrapped_exactly_once_witness :
    (execute_task mainRegistry (bareInvocation "boom")).errorLogs =
      [.taskFailed (mkErrorData "boom")]
  ∧ (execute_task mainRegistry (bareInvocation "boom")).outcome =
      .appError (mkErrorData "boom")
  ∧ (mkErrorData "boom").details = "boom" := by
  have h := handler_error_wrapped_exactly_once mainRegistry
    (bareInvocation "boom") boomTask .null [] "boom" rfl rfl rfl
  exact ⟨h.1, h.2.1, h.2.2.2.2⟩

/-- C4 counterexample: an invocation whose workflow name resolves to nothing
fails during resolution, yet the worker executor and the heartbeat task have
already been allocated before the failure (they are the first two engine
events, and cleanup must tear them down) — refuting the claim that no
resource is allocated before a resolution failure. -/
theorem resolution_failure_still_allocates_resources :
    (execute_task [] (bareInvocation "sum")).runCalls = 0
  ∧ (execute_task [] (bareInvocation "sum")).outcome =
      .appError (mkErrorData "Workflow wf not found")
  ∧ (execute_task [] (bareInvocation "sum")).events =
      [Event.executorCreated, Event.heartbeatTaskCreated,
        Event.heartbeatStopped, Event.executorShutdown] := ⟨rfl, rfl, rfl⟩

/-- C4 (amended): every invocation that fails during resolution (unknown
workflow or task) or during validation short-circuits directly to the failed
outcome without ever entering the running state: `run` and `on_cancel` are
never invoked and no heartbeat is emitted; however, the heartbeat task and
the worker executor are allocated before resolution begins and are torn down
by the unconditional cleanup. -/
theorem resolution_or_validation_failure_short_circuits
    (registry : List (String × Workflow)) (ei : ScriptExecutionInput)
    (hfail : (∃ msg, get_workflow_and_task registry ei = .error msg)
      ∨ (∃ task vf, get_workflow_and_task registry ei = .ok task
          ∧ validate_input_data (process_input_data ei) task = .error vf)) :
    (execute_task registry ei).runCalls = 0
  ∧ (execute_task registry ei).onCancelCalls = 0
  ∧ (∃ d, (execute_task registry ei).outcome = .appError d)
  ∧ Event.runInvoked ∉ (execute_task registry ei).events
  ∧ Event.initialHeartbeat ∉ (execute_task registry ei).events
  ∧ (execute_task registry ei).events =
      [Event.executorCreated, Event.heartbeatTaskCreated,
        Event.heartbeatStopped, Event.executorShutdown] := by
  have hnotin1 : Event.runInvoked ∉ [Event.executorCreated,
      Event.heartbeatTaskCreated, Event.heartbeatStopped,
      Event.executorShutdown] := by decide
  have hnotin2 : Event.initialHeartbeat ∉ [Event.executorCreated,
      Event.heartbeatTaskCreated, Event.heartbeatStopped,
      Event.executorShutdown] := by decide
  rcases hfail with ⟨msg, hres⟩ | ⟨task, vf, hres, hval⟩
  · rw [execute_task_resolution_error registry ei msg hres]
    exact ⟨rfl, rfl, ⟨mkErrorData msg, rfl⟩, hnotin1, hnotin2, rfl⟩
  · rw [execute_task_validation_error registry ei task vf hres hval]
    exact ⟨rfl, rfl, ⟨mkErrorData vf.message, rfl⟩, hnotin1, hnotin2, rfl⟩

/-- Witness for C4 (amended): an invocation against the empty registry fails
in resolution with `run` never invoked, no heartbeat emitted, and the
pre-allocated resources torn down. -/
theorem resolution_or_validation_failure_short_circuits_witness :
    (execute_task [] (bareInvocation "nope")).runCalls = 0
  ∧ Event.runInvoked ∉ (execute_task [] (bareInvocation "nope")).events
  ∧ Event.initialHeartbeat ∉ (execute_task [] (bareInvocation "nope")).events := by
  have h := resolution_or_validation_failure_short_circuits []
    (bareInvocation "nope") (Or.inl ⟨"Workflow wf not found", rfl⟩)
  exact ⟨h.1, h.2.2.2.1, h.2.2.2.2.1⟩

/-- C5: for every task that declares an input schema, invoking it with the
raw input absent fails with the validation error whose message names the
declared schema, and the `run` handler is never invoked (its call count is
zero). -/
theorem missing_input_fails_naming_schema
    (registry : List (String × Workflow)) (ei : ScriptExecutionInput)
    (task : TaskDefinition) (m : Model)
    (hres : get_workflow_and_task registry ei = .ok task)
    (hm : task.model_type = some m)
    (habs : ei.input_data = none) :
    (execute_task registry ei).runCalls = 0
  ∧ (execute_task registry ei).outcome =
      .appError (mkErrorData ("Task '" ++ task.name ++
        "' requires input of type " ++ m.name ++ " but received None")) := by
  have hproc : process_input_data ei = .null := by
    simp only [process_input_data, habs]
  have hval : validate_input_data (process_input_data ei) task =
      .error (.missingInput ("Task '" ++ task.name ++
        "' requires input of type " ++ m.name ++ " but received None")) := by
    rw [hproc]
    exact validate_of_missing_input task m hm
  rw [execute_task_validation_error registry ei task _ hres hval]
  exact ⟨rfl, rfl⟩

/-- Witness for C5: the `strict` fixture, invoked with absent input, fails
with the missing-input error naming `StrictInput` and `run` is never
called. -/
theorem missing_input_fails_naming_schema_witness :
    (execute_task mainRegistry (bareInvocation "strict")).runCalls = 0
  ∧ (execute_task mainRegistry (bareInvocation "strict")).outcome =
      .appError (mkErrorData
        "Task 'strict' requires input of type StrictInput but received None") := by
  have h := missing_input_fails_naming_schema mainRegistry
    (bareInvocation "strict") strictTask strictModel rfl rfl rfl
  exact ⟨h.1, h.2⟩

/-- C6: for every task that declares no input schema, validation returns the
absent value regardless of the raw input sent (including absent input), and
the `run` handler receives it without error. -/
theorem no_schema_ignores_raw_input (task : TaskDefinition)
    (hm : task.model_type = none) :
    (∀ x, validate_input_data x task = .ok .null)
  ∧ (∀ (registry : List (String × Workflow)) (ei : ScriptExecutionInput),
      get_workflow_and_task registry ei = .ok task →
        (execute_task registry ei).runCalls = 1
      ∧ (execute_task registry ei).runCtx = some ⟨[], .null⟩) := by
  refine ⟨validate_of_no_model task hm, ?_⟩
  intro registry ei hres
  rw [execute_task_eq_dispatch registry ei task .null hres
    (validate_of_no_model task hm _)]
  rcases hrb : task.config.run.behavior ⟨[], .null⟩ with ⟨s1, out⟩
  rcases out with r | e
  · rw [run_phase_of_ok task ei.task_name .null s1 r hrb]
    exact ⟨rfl, rfl⟩
  · rcases e with _ | msg
    · rcases hoc : task.config.on_cancel with _ | handler
      · rw [run_phase_of_cancel_none task ei.task_name .null s1 hrb hoc]
        exact ⟨rfl, rfl⟩
      · rcases hb : handler.behavior ⟨s1, .null⟩ with ⟨s2, co⟩
        rw [run_phase_of_cancel_some task ei.task_name .null s1 s2 handler
          co hrb hoc hb]
        exact ⟨rfl, rfl⟩
    · rw [run_phase_of_error task ei.task_name .null s1 msg hrb]
      exact ⟨rfl, rfl⟩

/-- Witness for C6: the `noop` fixture (no schema) validates an arbitrary
payload to the absent value, and its `run` is invoked once with no input. -/
theorem no_schema_ignores_raw_input_witness :
    validate_input_data (.obj [("ignored", .int 1)]) noopTask = .ok .null
  ∧ (execute_task mainRegistry (bareInvocation "noop")).runCalls = 1
  ∧ (execute_task mainRegistry (bareInvocation "noop")).runCtx =
      some ⟨[], .null⟩ := by
  have h := no_schema_ignores_raw_input noopTask rfl
  have h2 := h.2 mainRegistry (bareInvocation "noop") rfl
  exact ⟨h.1 _, h2.1, h2.2⟩

/-- C7 counterexample: the empty dict `input_data={}` contains no `"data"`
key, yet the extracted payload is not `input_data` itself but the absent
value — refuting the claim's general rule that when `input_data` has no
`"data"` key, `input_data` itself is the payload. -/
theorem empty_dict_payload_is_not_itself :
    process_input_data ⟨"wf", "sum", some []⟩ = JsonVal.null
  ∧ process_input_data ⟨"wf", "sum", some []⟩ ≠ JsonVal.obj [] :=
  ⟨rfl, fun h => JsonVal.noConfusion h⟩

/-- C7 (amended): the task definition `sum` with schema `{a:int,b:int}` and
run handler returning `ctx.input.a + ctx.input.b`, invoked with
`input_data={"data":{"a":2,"b":3}}`, yields the result `{task:"sum",
data:5}`; in general, for non-empty `input_data`, if it contains a `"data"`
key that value is the payload and otherwise `input_data` itself is, while
empty or absent `input_data` yields no payload. -/
theorem sum_example_and_payload_extraction (w t : String)
    (d : List (String × JsonVal)) (hne : d ≠ []) :
    (execute_task mainRegistry sumInvocation).outcome =
      .success { task := "sum", data := .int 5 }
  ∧ process_input_data ⟨w, t, some d⟩ =
      (match dictGet d "data" with
       | some v => v
       | none => .obj d)
  ∧ process_input_data ⟨w, t, none⟩ = .null
  ∧ process_input_data ⟨w, t, some []⟩ = .null := by
  have hne2 : d.isEmpty = false := by
    cases d with
    | nil => exact absurd rfl hne
    | cons a l => rfl
  refine ⟨rfl, ?_, rfl, rfl⟩
  simp only [process_input_data, hne2, Bool.false_eq_true, if_false]

/-- Witness for C7 (amended): the `sum` example yields `{task:"sum",
data:5}`, and a non-empty `input_data` without a `"data"` key is itself the
payload. -/
theorem sum_example_and_payload_extraction_witness :
    (execute_task mainRegistry sumInvocation).outcome =
      .success { task := "sum", data := .int 5 }
  ∧ process_input_data ⟨"wf", "sum", some [("x", JsonVal.null)]⟩ =
      JsonVal.obj [("x", JsonVal.null)] := by
  have h := sum_example_and_payload_extraction "wf" "sum"
    [("x", JsonVal.null)] (fun hh => List.noConfusion hh)
  exact ⟨h.1, h.2.1⟩

/-- C8: on every exit path of an invocation that reached handler dispatch —
success, handler error, or cancellation (including an exception raised
during the cancellation cleanup) — the heartbeat task is stopped and its
completion awaited and the worker executor is shut down, and this teardown
happens only after `run` (and, when invoked, `on_cancel`) has fully
settled. -/
theorem teardown_on_every_exit_path_after_settlement
    (registry : List (String × Workflow)) (ei : ScriptExecutionInput)
    (hdisp : Event.runInvoked ∈ (execute_task registry ei).events) :
    ∃ p, (execute_task registry ei).events =
        p ++ [Event.heartbeatStopped, Event.executorShutdown]
      ∧ Event.runSettled ∈ p
      ∧ (Event.onCancelInvoked ∈ (execute_task registry ei).events →
          Event.onCancelSettled ∈ p) := by
  rcases hres : get_workflow_and_task registry ei with msg | task
  · have hev : (execute_task registry ei).events = [Event.executorCreated,
        Event.heartbeatTaskCreated, Event.heartbeatStopped,
        Event.executorShutdown] := by
      rw [execute_task_resolution_error registry ei msg hres]
      rfl
    rw [hev] at hdisp
    exact absurd hdisp (by decide)
  · rcases hval : validate_input_data (process_input_data ei) task with vf | v
    · have hev : (execute_task registry ei).events = [Event.executorCreated,
          Event.heartbeatTaskCreated, Event.heartbeatStopped,
          Event.executorShutdown] := by
        rw [execute_task_validation_error registry ei task vf hres hval]
        rfl
      rw [hev] at hdisp
      exact absurd hdisp (by decide)
    · rcases hrb : task.config.run.behavior ⟨[], v⟩ with ⟨s1, out⟩
      rcases out with r | e
      · have hev : (execute_task registry ei).events = [Event.executorCreated,
            Event.heartbeatTaskCreated, Event.initialHeartbeat,
            Event.runInvoked, Event.runSettled, Event.heartbeatStopped,
            Event.executorShutdown] := by
          rw [execute_task_eq_dispatch registry ei task v hres hval,
            run_phase_of_ok task ei.task_name v s1 r hrb]
          rfl
        rw [hev]
        exact ⟨[Event.executorCreated, Event.heartbeatTaskCreated,
          Event.initialHeartbeat, Event.runInvoked, Event.runSettled], rfl,
          by decide, fun hc => absurd hc (by decide)⟩
      · rcases e with _ | msg
        · rcases hoc : task.config.on_cancel with _ | handler
          · have hev : (execute_task registry ei).events =
                [Event.executorCreated, Event.heartbeatTaskCreated,
                  Event.initialHeartbeat, Event.runInvoked, Event.runSettled,
                  Event.heartbeatStopped, Event.executorShutdown] := by
              rw [execute_task_eq_dispatch registry ei task v hres hval,
                run_phase_of_cancel_none task ei.task_name v s1 hrb hoc]
              rfl
            rw [hev]
            exact ⟨[Event.executorCreated, Event.heartbeatTaskCreated,
              Event.initialHeartbeat, Event.runInvoked, Event.runSettled], rfl,
              by decide, fun hc => absurd hc (by decide)⟩
          · rcases hb : handler.behavior ⟨s1, v⟩ with ⟨s2, co⟩
            have hev : (execute_task registry ei).events =
                [Event.executorCreated, Event.heartbeatTaskCreated,
                  Event.initialHeartbeat, Event.runInvoked, Event.runSettled,
                  Event.onCancelInvoked, Event.onCancelSettled,
                  Event.heartbeatStopped, Event.executorShutdown] := by
              rw [execute_task_eq_dispatch registry ei task v hres hval,
                run_phase_of_cancel_some task ei.task_name v s1 s2 handler
                  co hrb hoc hb]
              rfl
            rw [hev]
            exact ⟨[Event.executorCreated, Event.heartbeatTaskCreated,
              Event.initialHeartbeat, Event.runInvoked, Event.runSettled,
              Event.onCancelInvoked, Event.onCancelSettled], rfl,
              by decide, fun _ => by decide⟩
        · have hev : (execute_task registry ei).events =
              [Event.executorCreated, Event.heartbeatTaskCreated,
                Event.initialHeartbeat, Event.runInvoked, Event.runSettled,
                Event.heartbeatStopped, Event.executorShutdown] := by
            rw [execute_task_eq_dispatch registry ei task v hres hval,
              run_phase_of_error task ei.task_name v s1 msg hrb]
            rfl
          rw [hev]
          exact ⟨[Event.executorCreated, Event.heartbeatTaskCreated,
            Event.initialHeartbeat, Event.runInvoked, Event.runSettled], rfl,
            by decide, fun hc => absurd hc (by decide)⟩

/-- Witness for C8: the `noop` fixture reaches dispatch, and its event trace
ends with the teardown pair after `run` settled. -/
theorem teardown_on_every_exit_path_after_settlement_witness :
    Event.runInvoked ∈ (execute_task mainRegistry (bareInvocation "noop")).events
  ∧ ∃ p, (execute_task mainRegistry (bareInvocation "noop")).events =
        p ++ [Event.heartbeatStopped, Event.executorShutdown]
      ∧ Event.runSettled ∈ p
      ∧ (Event.onCancelInvoked ∈
            (execute_task mainRegistry (bareInvocation "noop")).events →
          Event.onCancelSettled ∈ p) := by
  have hd : Event.runInvoked ∈
      (execute_task mainRegistry (bareInvocation "noop")).events := by
    show Event.runInvoked ∈ [Event.executorCreated, Event.heartbeatTaskCreated,
      Event.initialHeartbeat, Event.runInvoked, Event.runSettled,
      Event.heartbeatStopped, Event.executorShutdown]
    decide
  exact ⟨hd, teardown_on_every_exit_path_after_settlement mainRegistry
    (bareInvocation "noop") hd⟩

/-- The task identifier the engine installs in the context variable,
`workflow_name ++ "/" ++ task_name`, is always a truthy string. -/
theorem task_identifier_truthy (wf tk : String) :
    pyTruthyStr (some (wf ++ "/" ++ tk)) = true := by
  simp only [pyTruthyStr, bne_iff_ne, ne_eq]
  intro h
  have h2 := congrArg String.length h
  simp only [String.length_append, String.length_empty] at h2
  have h3 : String.length "/" = 1 := rfl
  omega

/-- C9: for every call to the intercepted print function: when a
task-identity context is set (the engine installs the identifier
`workflow/task`) and the destination is one of the two standard output
streams or unspecified, exactly one JSON line `{marker, level, message,
task_identity, timestamp}` is written to the error stream, with a flush
request honored synchronously; when the destination is any other file
object, or no task context is set, the call passes through to the original
print unmodified. -/
theorem structured_print_contract (wf tk : String) (args : List String)
    (sep eol : String) (flush : Bool) (now : String) :
    (structured_print (some (wf ++ "/" ++ tk)) args sep eol
        Dest.unspecified flush now =
      .structuredLine
        { marker := true, level := "info",
          message := String.intercalate sep args,
          task_name := wf ++ "/" ++ tk, timestamp := now } flush)
  ∧ (structured_print (some (wf ++ "/" ++ tk)) args sep eol
        Dest.stdout flush now =
      .structuredLine
        { marker := true, level := "info",
          message := String.intercalate sep args,
          task_name := wf ++ "/" ++ tk, timestamp := now } flush)
  ∧ (structured_print (some (wf ++ "/" ++ tk)) args sep eol
        Dest.stderr flush now =
      .structuredLine
        { marker := true, level := "info",
          message := String.intercalate sep args,
          task_name := wf ++ "/" ++ tk, timestamp := now } flush)
  ∧ (structured_print (some (wf ++ "/" ++ tk)) args sep eol
        Dest.other flush now =
      .passthrough args sep eol Dest.other flush)
  ∧ (∀ file flush2, structured_print none args sep eol file flush2 now =
      .passthrough args sep eol file flush2) := by
  refine ⟨?_, ?_, ?_, ?_, ?_⟩
  · simp only [structured_print, task_identifier_truthy, Bool.true_and]
    rfl
  · simp only [structured_print, task_identifier_truthy, Bool.true_and]
    rfl
  · simp only [structured_print, task_identifier_truthy, Bool.true_and]
    rfl
  · simp only [structured_print, task_identifier_truthy, Bool.true_and]
    rfl
  · intro file flush2
    rfl

/-- C10: for every invocation whose `input_data` is the empty dict (a falsy
value), the extracted payload is the absent value and the whole engine
behaves exactly as if `input_data` were absent: a task with a declared
schema fails with the missing-input error naming the schema (the empty dict
is never passed to schema coercion), and a task with no schema receives no
input. -/
theorem empty_dict_input_behaves_as_absent (w t : String)
    (registry : List (String × Workflow)) :
    process_input_data ⟨w, t, some []⟩ = JsonVal.null
  ∧ execute_task registry ⟨w, t, some []⟩ = execute_task registry ⟨w, t, none⟩
  ∧ (∀ task, validate_input_data (process_input_data ⟨w, t, some []⟩) task =
      (match task.model_type with
       | none => .ok .null
       | some m => .error (.missingInput ("Task '" ++ task.name ++
           "' requires input of type " ++ m.name ++ " but received None")))) := by
  refine ⟨rfl, rfl, ?_⟩
  intro task
  rcases hm : task.model_type with _ | m
  · exact validate_of_no_model task hm _
  · exact validate_of_missing_input task m hm

end MooseWorker
